import Mathlib

/-!
Shallow embedding of the `tdlm-content-bot` repository (Python sources
`content_bot.py`, `utils/sheets.py`, `utils/wp.py`, `app.py`) and proofs of
the specification claims about it.

Conventions of the embedding:
* Python strings are Lean `String`s; `None`-able strings are `Option String`.
* Python exceptions are modelled with `Except`: a function that can raise
  returns `Except PyErr _`; the error value carries the exception kind and
  message.
* Remote calls (Google Sheets, OpenAI, WordPress) are inputs of the model:
  their outcomes are fields of an environment record, `Except`-valued where
  the call can raise.
* Cell writes to the plan tab are collected in an explicit trace
  (`List CellWrite`); `run_once` returns its Python result together with the
  trace of writes it issued.
* Floats (`base_sleep = 0.7`, jitter `random.random() * 0.25`) are modelled
  as rationals; `time.sleep` durations are recorded in a trace list.
-/

set_option maxRecDepth 40000

namespace TdlmBot

/-! ### Python string primitives -/

/-- Characters treated as whitespace by the embedding of `str.strip()` /
`str.split()`. -/
def pyWs (c : Char) : Bool := c.isWhitespace

/-- `str.strip()` on the character list: drop leading whitespace, then drop
trailing whitespace (implemented as reverse / dropWhile / reverse). -/
def stripList (l : List Char) : List Char :=
  ((l.dropWhile pyWs).reverse.dropWhile pyWs).reverse

/-- Embeds Python `s.strip()`. -/
def pyStrip (s : String) : String := String.mk (stripList s.data)

/-- Embeds `_norm` from `content_bot.py`: `(s or "").strip()` for a
string-or-`None` argument. -/
def pyNorm (s : Option String) : String := pyStrip (s.getD "")

/-- Embeds Python `a or b` for strings (`""` is falsy). -/
def pyOr (a b : String) : String := if a = "" then b else a

/-- Embeds Python `s.lower()` (per-character; the data in the claims is
ASCII). -/
def pyLower (s : String) : String := String.mk (s.data.map Char.toLower)

/-- Embeds Python `s.upper()` (per-character). -/
def pyUpper (s : String) : String := String.mk (s.data.map Char.toUpper)

/-- Embeds Python `s.replace(",", " ")` (single-character pattern). -/
def pyReplaceComma (s : String) : String :=
  String.mk (s.data.map (fun c => if c = ',' then ' ' else c))

/-- Accumulating worker for `pyWords`. -/
def pyWordsAux : List Char → List Char → List String
  | [], acc => if acc.isEmpty then [] else [String.mk acc.reverse]
  | c :: rest, acc =>
    if pyWs c then
      if acc.isEmpty then pyWordsAux rest []
      else String.mk acc.reverse :: pyWordsAux rest []
    else pyWordsAux rest (c :: acc)

/-- Embeds Python `s.split()` with no argument: split on whitespace runs,
no empty pieces. -/
def pyWords (s : String) : List String := pyWordsAux s.data []

/-! ### Row dictionaries -/

/-- A Python `dict[str, str]` as an association list (first binding wins on
lookup; the rows handled by the theorems have pairwise distinct keys). -/
abbrev Dict := List (String × String)

/-- Embeds `d.get(k)`: `none` when the key is absent. -/
def dget (d : Dict) (k : String) : Option String :=
  (d.find? (fun p => p.1 = k)).map (fun p => p.2)

/-- Embeds `d.get(k, "")`. -/
def dgetD (d : Dict) (k : String) : String := (dget d k).getD ""

/-! ### Python exceptions -/

/-- The exception kinds the modelled code can raise. -/
inductive PyErr where
  | RuntimeError (msg : String)
  | AttributeError (msg : String)
  | KeyError (msg : String)
  | Other (msg : String)
deriving DecidableEq, Repr

/-! ### `utils/sheets.py`: `with_backoff` -/

/-- The retry loop of `with_backoff` (`utils/sheets.py`).
`fn i` is the outcome of attempt `i` (0-based), `jitter i` the value of
`random.random() * 0.25` drawn after a failed attempt `i`.  Returns the
final outcome (`.error last_err`; `.error none` models the `raise None` of
`tries = 0`) together with the list of `time.sleep` durations, each
`base_sleep * 2 ^ i + jitter i`. -/
def backoff_loop {E A : Type} (fn : Nat → Except E A) (jitter : Nat → ℚ)
    (base_sleep : ℚ) : Nat → Nat → Option E → Except (Option E) A × List ℚ
  | 0, _, last => (.error last, [])
  | k + 1, i, _ =>
    match fn i with
    | .ok v => (.ok v, [])
    | .error e =>
      let s := base_sleep * 2 ^ i + jitter i
      let rest := backoff_loop fn jitter base_sleep k (i + 1) (some e)
      (rest.1, s :: rest.2)

/-- Embeds `with_backoff(fn, tries=5, base_sleep=0.7)` from
`utils/sheets.py`: try up to `tries` times, sleeping
`base_sleep * (2 ** i) + random.random() * 0.25` after failed attempt `i`,
re-raising the last error when all attempts fail. -/
def with_backoff {E A : Type} (fn : Nat → Except E A) (jitter : Nat → ℚ)
    (tries : Nat) (base_sleep : ℚ) : Except (Option E) A × List ℚ :=
  backoff_loop fn jitter base_sleep tries 0 none

/-! ### `utils/sheets.py`: header map and column lookup -/

/-- A Python dict `header text → 1-based column`, as an insertion-ordered
association list. -/
abbrev HeaderMap := List (String × Nat)

/-- Python dict assignment `m[k] = v`: overwrite in place when the key
exists (keeping its insertion position), else append. -/
def dictInsert (m : HeaderMap) (k : String) (v : Nat) : HeaderMap :=
  if m.any (fun p => p.1 = k) then
    m.map (fun p => if p.1 = k then (k, v) else p)
  else m ++ [(k, v)]

/-- The dict comprehension of `build_header_map`, folded over the enumerated
header cells. -/
def bhm_go (m : HeaderMap) : List (Nat × String) → HeaderMap
  | [] => m
  | p :: l =>
    if pyStrip p.2 = "" then bhm_go m l
    else bhm_go (dictInsert m (pyStrip p.2) (p.1 + 1)) l

/-- Embeds `build_header_map` (`utils/sheets.py`):
`{h.strip(): i + 1 for i, h in enumerate(headers) if (h or "").strip()}`,
taking the already-read header row (`ws.row_values(1)`) as input. -/
def build_header_map (headers : List String) : HeaderMap :=
  bhm_go [] headers.enum

/-- The intended content of the header map: one entry per enumerated header
cell whose trimmed text is non-blank, mapping the trimmed text to the
1-based position.  `build_header_map` equals this whenever the trimmed
non-blank headers are pairwise distinct. -/
def headerEntries (l : List (Nat × String)) : HeaderMap :=
  (l.filter (fun p => pyStrip p.2 ≠ "")).map (fun p => (pyStrip p.2, p.1 + 1))

/-- Embeds `col_idx` (`utils/sheets.py`): strip the requested name, try an
exact dict lookup, then scan the map in insertion order for a
case-insensitive match of the stripped keys, else raise `KeyError`. -/
def col_idx (hm : HeaderMap) (name : String) : Except PyErr Nat :=
  let key := pyStrip name
  match hm.find? (fun p => p.1 = key) with
  | some p => .ok p.2
  | none =>
    match hm.find? (fun p => pyLower (pyStrip p.1) = pyLower key) with
    | some p => .ok p.2
    | none => .error (.KeyError ("Columna no encontrada en encabezados: " ++ name))

/-! ### `utils/sheets.py`: `get_all_values_safe` -/

/-- A sheet as a grid of cell texts. -/
abbrev Grid := List (List String)

/-- Embeds `get_all_values_safe` (`utils/sheets.py`): run
`with_backoff(ws.get_all_values)` at the default parameters
(`tries = 5`, `base_sleep = 0.7`); if even the retries fail, return the
caller-supplied default, or `[]` when none was given, instead of raising.
The return type is a plain `Grid`: the function has no error outcome. -/
def get_all_values_safe {E : Type} (fn : Nat → Except E Grid) (jitter : Nat → ℚ)
    (dflt : Option Grid) : Grid :=
  match (with_backoff fn jitter 5 (7 / 10 : ℚ)).1 with
  | .ok g => g
  | .error _ => dflt.getD []

/-! ### JSON values and a model of Python `json.loads` -/

/-- A parsed JSON value.  Numbers keep their raw lexeme: no claim inspects a
numeric value, and this avoids floating point. -/
inductive Jval where
  | null
  | bool (b : Bool)
  | num (raw : String)
  | str (s : String)
  | arr (xs : List Jval)
  | obj (kvs : List (String × Jval))

/-- The left brace character, kept out of literals. -/
def braceL : Char := Char.ofNat 123

/-- The right brace character. -/
def braceR : Char := Char.ofNat 125

/-- The double-quote character. -/
def quoteC : Char := Char.ofNat 34

/-- The backslash character. -/
def backslashC : Char := Char.ofNat 92

/-- JSON inter-token whitespace (space, tab, newline, carriage return). -/
def jsonWs (c : Char) : Bool := c = ' ' || c = '\t' || c = '\n' || c = '\r'

/-- Skip JSON whitespace. -/
def skipWsL (l : List Char) : List Char := l.dropWhile jsonWs

/-- Hexadecimal digit value. -/
def hexVal (c : Char) : Option Nat :=
  if c.isDigit then some (c.toNat - 48)
  else if 'a' ≤ c ∧ c ≤ 'f' then some (c.toNat - 87)
  else if 'A' ≤ c ∧ c ≤ 'F' then some (c.toNat - 55)
  else none

/-- Parse the remainder of a JSON string literal (the opening quote already
consumed), handling the escape sequences of the JSON grammar. -/
def pstr (fuel : Nat) (acc : List Char) (l : List Char) : Option (String × List Char) :=
  match fuel with
  | 0 => none
  | fuel + 1 =>
    match l with
    | [] => none
    | c :: rest =>
      if c = quoteC then some (String.mk acc.reverse, rest)
      else if c = backslashC then
        match rest with
        | [] => none
        | e :: rest2 =>
          if e = quoteC || e = backslashC || e = '/' then pstr fuel (e :: acc) rest2
          else if e = 'b' then pstr fuel (Char.ofNat 8 :: acc) rest2
          else if e = 'f' then pstr fuel (Char.ofNat 12 :: acc) rest2
          else if e = 'n' then pstr fuel ('\n' :: acc) rest2
          else if e = 'r' then pstr fuel ('\r' :: acc) rest2
          else if e = 't' then pstr fuel ('\t' :: acc) rest2
          else if e = 'u' then
            match rest2 with
            | h1 :: h2 :: h3 :: h4 :: rest3 =>
              match hexVal h1, hexVal h2, hexVal h3, hexVal h4 with
              | some a, some b, some c2, some d =>
                pstr fuel (Char.ofNat (((a * 16 + b) * 16 + c2) * 16 + d) :: acc) rest3
              | _, _, _, _ => none
            | _ => none
          else none
      else if c.toNat < 32 then none
      else pstr fuel (c :: acc) rest

/-- Parse the optional fraction part of a JSON number as a raw lexeme. -/
def parseFrac (l : List Char) : Option (List Char × List Char) :=
  match l with
  | [] => some ([], l)
  | c :: rest =>
    if c = '.' then
      match rest.takeWhile Char.isDigit with
      | [] => none
      | ds => some (c :: ds, rest.dropWhile Char.isDigit)
    else some ([], l)

/-- Parse the optional exponent part of a JSON number as a raw lexeme. -/
def parseExp (l : List Char) : Option (List Char × List Char) :=
  match l with
  | [] => some ([], l)
  | c :: rest =>
    if c = 'e' || c = 'E' then
      let (sgn, rest2) :=
        match rest with
        | s :: r2 => if s = '+' || s = '-' then ([s], r2) else (([] : List Char), rest)
        | [] => (([] : List Char), rest)
      match rest2.takeWhile Char.isDigit with
      | [] => none
      | ds => some (c :: sgn ++ ds, rest2.dropWhile Char.isDigit)
    else some ([], l)

/-- Parse a JSON number, returning its raw lexeme. -/
def parseNum (l0 : List Char) : Option (String × List Char) :=
  let (sgn, l1) :=
    match l0 with
    | c :: rest => if c = '-' then ([c], rest) else (([] : List Char), l0)
    | [] => (([] : List Char), l0)
  match l1 with
  | [] => none
  | c :: rest =>
    let intRes : Option (List Char × List Char) :=
      if c = '0' then some ([c], rest)
      else if c.isDigit then some (c :: rest.takeWhile Char.isDigit, rest.dropWhile Char.isDigit)
      else none
    match intRes with
    | none => none
    | some (ip, r1) =>
      match parseFrac r1 with
      | none => none
      | some (fp, r2) =>
        match parseExp r2 with
        | none => none
        | some (ep, r3) => some (String.mk (sgn ++ ip ++ fp ++ ep), r3)

mutual

/-- Parse one JSON value (fuel-indexed recursive descent). -/
def parseVal : Nat → List Char → Option (Jval × List Char)
  | 0, _ => none
  | fuel + 1, l0 =>
    let l := skipWsL l0
    match l with
    | [] => none
    | c :: rest =>
      if c = quoteC then (pstr (rest.length + 1) [] rest).map (fun p => (.str p.1, p.2))
      else if c = braceL then parseMembers fuel (skipWsL rest) [] true
      else if c = '[' then parseElems fuel (skipWsL rest) [] true
      else if l.take 4 = ['n', 'u', 'l', 'l'] then some (.null, l.drop 4)
      else if l.take 4 = ['t', 'r', 'u', 'e'] then some (.bool true, l.drop 4)
      else if l.take 5 = ['f', 'a', 'l', 's', 'e'] then some (.bool false, l.drop 5)
      else if c = '-' || c.isDigit then (parseNum l).map (fun p => (.num p.1, p.2))
      else none

/-- Parse the elements of a JSON array (opening bracket consumed, leading
whitespace skipped). -/
def parseElems : Nat → List Char → List Jval → Bool → Option (Jval × List Char)
  | 0, _, _, _ => none
  | fuel + 1, l, acc, first =>
    match l with
    | [] => none
    | c :: rest =>
      if first && c = ']' then some (.arr [], rest)
      else
        match parseVal fuel l with
        | none => none
        | some (v, r1) =>
          match skipWsL r1 with
          | [] => none
          | c2 :: r2 =>
            if c2 = ',' then parseElems fuel (skipWsL r2) (v :: acc) false
            else if c2 = ']' then some (.arr (v :: acc).reverse, r2)
            else none

/-- Parse the members of a JSON object (opening brace consumed, leading
whitespace skipped). -/
def parseMembers : Nat → List Char → List (String × Jval) → Bool → Option (Jval × List Char)
  | 0, _, _, _ => none
  | fuel + 1, l, acc, first =>
    match l with
    | [] => none
    | c :: rest =>
      if first && c = braceR then some (.obj [], rest)
      else if c = quoteC then
        match pstr (rest.length + 1) [] rest with
        | none => none
        | some (k, r1) =>
          match skipWsL r1 with
          | [] => none
          | c2 :: r2 =>
            if c2 = ':' then
              match parseVal fuel (skipWsL r2) with
              | none => none
              | some (v, r3) =>
                match skipWsL r3 with
                | [] => none
                | c3 :: r4 =>
                  if c3 = ',' then parseMembers fuel (skipWsL r4) ((k, v) :: acc) false
                  else if c3 = braceR then some (.obj ((k, v) :: acc).reverse, r4)
                  else none
            else none
      else none

end

/-- Model of Python `json.loads`: `none` when the text is not valid JSON
(a `json.JSONDecodeError`), including when non-whitespace trails the value. -/
def json_loads (s : String) : Option Jval :=
  match parseVal (s.data.length + 8) s.data with
  | some (v, rest) => if skipWsL rest = [] then some v else none
  | none => none

/-! ### `content_bot.py`: knowledge selection -/

/-- The token set of a string as in `_pick_knowledge`: lower-case, commas
replaced by spaces, whitespace-split, keep tokens of length ≥ 4, as a set
(deduplicated, first occurrence order). -/
def tokensOf (s : String) : List String :=
  ((pyWords (pyReplaceComma (pyLower s))).filter (fun t => 4 ≤ t.length)).dedup

/-- Size of the intersection of two token sets (`q` is deduplicated). -/
def interScore (q t : List String) : Nat := (q.filter (fun x => x ∈ t)).length

/-- The query token set `q_tokens` of `_pick_knowledge`, built from
`f"{tema} {palabras}"`. -/
def queryTokens (tema palabras : String) : List String :=
  tokensOf (tema ++ " " ++ palabras)

/-- The text of a knowledge row scored against the query:
`f"{r.get('Titulo_Visible','')} {r.get('Palabras_Clave','')} {r.get('Contenido_Legal','')}"`. -/
def rowText (r : Dict) : String :=
  dgetD r "Titulo_Visible" ++ " " ++ dgetD r "Palabras_Clave" ++ " " ++
    dgetD r "Contenido_Legal"

/-- The relevance score of a knowledge row. -/
def rowScore (tema palabras : String) (r : Dict) : Nat :=
  interScore (queryTokens tema palabras) (tokensOf (rowText r))

/-- The `scored` list of `_pick_knowledge`: rows with positive score, paired
with their score, in original order. -/
def scoredRows (rows : List Dict) (tema palabras : String) : List (Nat × Dict) :=
  rows.filterMap (fun r =>
    let sc := rowScore tema palabras r
    if 0 < sc then some (sc, r) else none)

/-- The ordering used for `scored.sort(key=lambda x: x[0], reverse=True)`:
score-descending; Python's sort is stable, and insertion sort under this
reflexive relation keeps equal-score entries in original order. -/
def scoreGe (a b : Nat × Dict) : Prop := b.1 ≤ a.1

instance : DecidableRel scoreGe := fun a b => Nat.decLe b.1 a.1

/-- Embeds `_pick_knowledge` (`content_bot.py`): if `id_tema_ai` is truthy
and some row's trimmed `ID_Tema` equals the trimmed identifier, return that
first matching row alone; otherwise score every row by token overlap, keep
positive scores, sort score-descending (stable), and return the top 2 rows. -/
def pick_knowledge (rows : List Dict) (tema palabras id_tema_ai : String) : List Dict :=
  match (if id_tema_ai ≠ "" then
      rows.find? (fun r => pyNorm (dget r "ID_Tema") = pyNorm (some id_tema_ai))
    else none) with
  | some r => [r]
  | none =>
    ((List.insertionSort scoreGe (scoredRows rows tema palabras)).take 2).map
      (fun p => p.2)

/-! ### `content_bot.py`: content generation -/

/-- The fixed fallback excerpt of `_openai_generate_post`. -/
def fallback_excerpt : String :=
  "Guía informativa y orientativa sobre tu situación laboral."

/-- The parse step of `_openai_generate_post`: `json.loads(content)`, and on
parse failure the fallback dict with the topic truncated to 120 characters,
the fixed excerpt, and the raw content wrapped in one paragraph. -/
def openai_parse (tema content : String) : Jval :=
  match json_loads content with
  | some v => v
  | none =>
    .obj [("title", .str (tema.take 120)),
          ("excerpt", .str fallback_excerpt),
          ("html", .str ("<p>" ++ content ++ "</p>"))]

/-- Embeds `_openai_generate_post` (`content_bot.py`): raise when the API
key is empty, propagate a failed generation call, else strip the response
text (`(content or "").strip()`) and parse it with fallback.  The response
body is an input (`resp`), the prompt affects only the external call. -/
def openai_generate_post (apiKey tema : String) (resp : Except PyErr (Option String)) :
    Except PyErr Jval :=
  if apiKey = "" then .error (.RuntimeError "Falta OPENAI_API_KEY")
  else
    match resp with
    | .error e => .error e
    | .ok c => .ok (openai_parse tema (pyStrip (c.getD "")))

/-! ### `content_bot.py`: the orchestrator `run_once` -/

/-- One cell update issued to the plan tab. -/
structure CellWrite where
  row : Nat
  col : Nat
  value : String
deriving DecidableEq, Repr

/-- The Python results `run_once` can return:
`{"status": "no_rows"}`, `{"status": "nothing_ready"}`, or
`{"status": "ok", "row": .., "wp_post_id": .., "link": ..}`. -/
inductive RunResult where
  | no_rows
  | nothing_ready
  | done (row : Nat) (wp_post_id : Option Int) (link : String)
deriving DecidableEq, Repr

/-- Modelled from the spec: `row_to_dict` is imported by `content_bot.py`
from `utils.sheets` but is not defined anywhere under `src/`.  Spec §3 / §9
describe row access as an explicit header-to-field projection onto a
row-as-dictionary with string keys and values; this pairs each header with
the cell below it.  Headers beyond the row's length get no binding, which
downstream reads through `d.get(...)` see as `None`, i.e. `dget` = `none`. -/
def row_to_dict (hdr row : List String) : Dict := hdr.zip row

/-- Modelled from the spec: `update_row_cells` is imported by
`content_bot.py` from `utils.sheets` but is not defined anywhere under
`src/`.  Spec §4.2 `updateCells(tab, rowNumber, updates, headerMap)`: given
header-name→value updates, resolve each header to a column via the header
map and issue one cell update per entry; entries whose header is not found
are silently skipped.  Returns the writes issued, in update order. -/
def update_row_cells (rowNum : Nat) (updates : List (String × String))
    (hmap : HeaderMap) : List CellWrite :=
  updates.foldr (fun kv acc =>
    match col_idx hmap kv.1 with
    | .ok c => { row := rowNum, col := c, value := kv.2 } :: acc
    | .error _ => acc) []

/-- Whether a data row's `Estatus` field claims it is ready:
`_norm(d.get("Estatus")).upper() == "READY"`. -/
def isReadyRow (hdr : List String) (r : List String) : Bool :=
  pyUpper (pyNorm (dget (row_to_dict hdr r) "Estatus")) = "READY"

/-- The scan of `run_once`: first data row (sheet row numbers starting at 2)
whose status is READY, with its row-dictionary. -/
def find_ready (hdr : List String) : List (List String) → Nat → Option (Nat × Dict)
  | [], _ => none
  | r :: rs, i =>
    if isReadyRow hdr r then some (i, row_to_dict hdr r)
    else find_ready hdr rs (i + 1)

/-- Embeds Python `str(post_id or "")` for the created post id. -/
def pyStrOfId : Option Int → String
  | none => ""
  | some n => if n = 0 then "" else toString n

/-- Whether a raw JSON number lexeme denotes zero (all its digits are 0). -/
def numIsZero (raw : String) : Bool :=
  (raw.data.filter Char.isDigit).all (fun c => c = '0')

/-- Embeds `post.get(k)` on the parsed generation result: JSON objects
support `.get` (duplicate keys: last wins, as in Python's JSON decoding);
any other value raises `AttributeError`. -/
def jget (v : Jval) (k : String) : Except PyErr (Option Jval) :=
  match v with
  | .obj kvs => .ok (((kvs.filter (fun p => p.1 = k)).getLast?).map (fun p => p.2))
  | _ => .error (.AttributeError "get")

/-- Embeds `_norm(x)` applied to a JSON value fetched with `.get`:
`(x or "").strip()` — strings are stripped, falsy values give `""`, truthy
non-strings raise `AttributeError` (no `.strip`). -/
def normJ : Option Jval → Except PyErr String
  | none => .ok ""
  | some (.str s) => .ok (pyStrip s)
  | some .null => .ok ""
  | some (.bool b) => if b then .error (.AttributeError "strip") else .ok ""
  | some (.num raw) =>
    if numIsZero raw then .ok "" else .error (.AttributeError "strip")
  | some (.arr xs) => if xs.isEmpty then .ok "" else .error (.AttributeError "strip")
  | some (.obj kvs) => if kvs.isEmpty then .ok "" else .error (.AttributeError "strip")

/-- The three field extractions of `run_once` from the generated post, in
source order:
`title = _norm(post.get("title")) or tema`,
`excerpt = _norm(post.get("excerpt")) or ""`,
`html = _norm(post.get("html")) or ""`. -/
def extract3 (post : Jval) (tema : String) : Except PyErr (String × String × String) :=
  match jget post "title" with
  | .error e => .error e
  | .ok t0 =>
    match normJ t0 with
    | .error e => .error e
    | .ok t1 =>
      match jget post "excerpt" with
      | .error e => .error e
      | .ok e0 =>
        match normJ e0 with
        | .error e => .error e
        | .ok e1 =>
          match jget post "html" with
          | .error e => .error e
          | .ok h0 =>
            match normJ h0 with
            | .error e => .error e
            | .ok h1 => .ok (pyOr t1 tema, pyOr e1 "", pyOr h1 "")

/-- The environment of one `run_once` invocation: the module-level
configuration (fields hold the values after the module's
`os.environ.get(...).strip()` processing) and the outcomes of every remote
interaction, `Except`-valued where the call can raise. -/
structure Env where
  /-- `CONTENT_SHEET_NAME` after strip. -/
  CONTENT_SHEET_NAME : String
  /-- `DEFAULT_WP_STATUS` after `strip() or "draft"`. -/
  DEFAULT_WP_STATUS : String
  /-- `OPENAI_API_KEY` after strip. -/
  OPENAI_API_KEY : String
  WP_BASE_URL : String
  WP_USER : String
  WP_APP_PASSWORD : String
  /-- The value `now_iso()` returns during this run. -/
  now_iso : String
  /-- Outcome of `open_spreadsheet` + `open_worksheet(sh, TAB_CONTENT_PLAN)`. -/
  open_plan : Except PyErr Unit
  /-- Grid returned by `get_all_values_safe(ws_plan)` (never raises). -/
  plan_values : Grid
  /-- Header row read by `build_header_map(ws_plan)` (`ws.row_values(1)`). -/
  plan_header_row : List String
  /-- Outcome of `open_worksheet(sh, TAB_KNOWLEDGE)`. -/
  open_knowledge : Except PyErr Unit
  /-- Grid returned by `get_all_values_safe(ws_k)`. -/
  knowledge_values : Grid
  /-- Outcome of the OpenAI chat call: the message content (`None`-able). -/
  gen_response : Except PyErr (Option String)
  /-- Outcome of `wp.get_or_create_category` (consulted only when the row
  names a category). -/
  category_result : Except PyErr Int
  /-- Outcome of `wp.create_post`: `(created.get("id"), created.get("link"))`. -/
  create_result : Except PyErr (Option Int × Option String)

/-- The part of `run_once` after a row has been claimed: mark it RUNNING,
read the knowledge tab, select knowledge, generate the post, publish it,
and mark the row PUBLISHED.  Returns the Python outcome together with the
trace of cell writes. -/
def run_claimed (env : Env) (target_idx : Nat) (target_row : Dict)
    (h : HeaderMap) : Except PyErr RunResult × List CellWrite :=
  let w1 := update_row_cells target_idx
    [("Estatus", "RUNNING"), ("Ultimo_Error", ""), ("Actualizado_En", env.now_iso)] h
  let tema := pyNorm (dget target_row "Tema")
  let palabras := pyNorm (dget target_row "Palabras_Clave")
  let wp_cat := pyNorm (dget target_row "WP_Categoria")
  let wp_status := pyOr (pyNorm (dget target_row "WP_Estatus")) env.DEFAULT_WP_STATUS
  let id_tema_ai := pyNorm (dget target_row "ID_Tema_AI")
  match env.open_knowledge with
  | .error e => (.error e, w1)
  | .ok _ =>
    let k_values := env.knowledge_values
    let knowledge_rows :=
      if 2 ≤ k_values.length then
        match k_values with
        | kh :: krs => krs.map (row_to_dict kh)
        | [] => []
      else []
    let _picked := pick_knowledge knowledge_rows tema palabras id_tema_ai
    match openai_generate_post env.OPENAI_API_KEY tema env.gen_response with
    | .error e => (.error e, w1)
    | .ok post =>
      match extract3 post tema with
      | .error e => (.error e, w1)
      | .ok (title, _excerpt, _html) =>
        if env.WP_BASE_URL = "" || env.WP_USER = "" || env.WP_APP_PASSWORD = "" then
          (.error (.RuntimeError "Faltan variables WP_BASE_URL / WP_USER / WP_APP_PASSWORD"), w1)
        else
          match (if wp_cat ≠ "" then (env.category_result).map some else .ok none) with
          | .error e => (.error e, w1)
          | .ok _cat_id =>
            match env.create_result with
            | .error e => (.error e, w1)
            | .ok (post_id, link0) =>
              let link := pyOr (link0.getD "") ""
              let w2 := update_row_cells target_idx
                [("Estatus", if wp_status = "publish" then "PUBLISHED" else "PUBLISHED"),
                 ("Titulo_Final", title),
                 ("URL_Publicado", link),
                 ("WP_Post_ID", pyStrOfId post_id),
                 ("Ultimo_Error", ""),
                 ("Actualizado_En", env.now_iso)] h
              (.ok (.done target_idx post_id link), w1 ++ w2)

/-- Embeds `run_once` (`content_bot.py`): fail fast on a missing sheet name,
open the plan tab, read the grid, return `no_rows` on fewer than two rows,
scan for the first READY row, return `nothing_ready` when none, else claim
it and run the publish cycle. -/
def run_once (env : Env) : Except PyErr RunResult × List CellWrite :=
  if env.CONTENT_SHEET_NAME = "" then
    (.error (.RuntimeError "Falta CONTENT_SHEET_NAME"), [])
  else
    match env.open_plan with
    | .error e => (.error e, [])
    | .ok _ =>
      match env.plan_values with
      | [] => (.ok .no_rows, [])
      | [_] => (.ok .no_rows, [])
      | hdr :: rows =>
        match find_ready hdr rows 2 with
        | none => (.ok .nothing_ready, [])
        | some (i, d) => run_claimed env i d (build_header_map env.plan_header_row)

/-! ### Module loading (`from utils.sheets import ...`) -/

/-- The names module `utils.sheets` binds at top level (its imports and its
definitions), transcribed from `src/utils/sheets.py`. -/
def sheets_module_names : List String :=
  ["os", "json", "time", "random", "base64", "ast",
   "Any", "Dict", "Optional", "Callable", "List",
   "gspread", "WorksheetNotFound", "Credentials",
   "DEFAULT_SCOPES", "_env", "_strip_wrapping_quotes", "_looks_base64",
   "_try_decode_b64", "_load_creds_info", "get_gspread_client",
   "with_backoff", "open_spreadsheet", "open_worksheet", "build_header_map",
   "col_idx", "get_all_values_safe", "row_values_safe", "update_cell_safe",
   "append_row_safe"]

/-- The names `content_bot.py` imports from `utils.sheets` (lines 8–11). -/
def content_bot_sheets_imports : List String :=
  ["open_spreadsheet", "open_worksheet", "build_header_map", "col_idx",
   "get_all_values_safe", "row_to_dict", "with_backoff", "update_row_cells"]

/-- Python `from M import a, b, ...`: fails with `ImportError` at the first
requested name the module does not bind. -/
def import_from (provided required : List String) : Except String Unit :=
  match required.find? (fun n => ¬ provided.contains n) with
  | some n => .error ("ImportError: cannot import name " ++ n)
  | none => .ok ()

/-- Loading module `content_bot` executes its import statements; the import
from `utils.sheets` must resolve every requested name. -/
def load_content_bot : Except String Unit :=
  import_from sheets_module_names content_bot_sheets_imports

/-- Any invocation of `run_once` (e.g. through `app.py`'s `/run_once`
route) first has to import module `content_bot`; only then does the
orchestrator body run. -/
def invoke_run_once (env : Env) : Except String (Except PyErr RunResult × List CellWrite) :=
  match load_content_bot with
  | .error e => .error e
  | .ok _ => .ok (run_once env)

/-! ### Concrete environments for the closed theorems -/

/-- The plan tab header row of the spec (§6), used by the concrete
environments. -/
def planHeader : List String :=
  ["Estatus", "Tema", "Palabras_Clave", "WP_Categoria", "WP_Estatus",
   "ID_Tema_AI", "Ultimo_Error", "Actualizado_En", "Titulo_Final",
   "URL_Publicado", "WP_Post_ID"]

/-- A concrete environment on the happy path: one READY row, every remote
call succeeds, the generation response is plain (non-JSON) text, the row
names no category, and the resolved publish status is the default draft. -/
def envHappy : Env :=
  { CONTENT_SHEET_NAME := "Plan"
    DEFAULT_WP_STATUS := "draft"
    OPENAI_API_KEY := "k"
    WP_BASE_URL := "https://example.org"
    WP_USER := "u"
    WP_APP_PASSWORD := "pw"
    now_iso := "2026-10-12T09:00:00-0600"
    open_plan := .ok ()
    plan_values := [planHeader, ["READY", "Vacaciones"]]
    plan_header_row := planHeader
    open_knowledge := .ok ()
    knowledge_values := []
    gen_response := .ok (some "texto plano")
    category_result := .ok 5
    create_result := .ok (some 42, some "https://example.org/p/1") }

/-- `envHappy` with the OpenAI key unset: the generation step raises
`RuntimeError("Falta OPENAI_API_KEY")` after the row was marked RUNNING. -/
def envFail : Env := { envHappy with OPENAI_API_KEY := "" }

/-- `envHappy` with several data rows: READY rows at sheet rows 3 and 5,
non-READY rows elsewhere; the scan must claim sheet row 3 only. -/
def envMulti : Env :=
  { envHappy with
    plan_values := [planHeader, ["DONE", "Contrato"], ["READY", "Vacaciones"],
      ["", "Otro"], ["READY", "Aguinaldo"]] }

/-! ## Helper lemmas -/

theorem stripList_def (l : List Char) :
    stripList l = List.rdropWhile pyWs (l.dropWhile pyWs) := rfl

theorem dropWhile_stripList (l : List Char) :
    (stripList l).dropWhile pyWs = stripList l := by
  rw [stripList_def, List.dropWhile_eq_self_iff]
  intro hl
  obtain ⟨t, ht⟩ := List.rdropWhile_prefix pyWs (l.dropWhile pyWs)
  have hlen : 0 < (l.dropWhile pyWs).length := by
    rw [← ht, List.length_append]
    exact Nat.lt_of_lt_of_le hl (Nat.le_add_right _ _)
  have hhead := List.dropWhile_eq_self_iff.mp (List.dropWhile_idempotent pyWs l) hlen
  have hq : (l.dropWhile pyWs)[0]? = (List.rdropWhile pyWs (l.dropWhile pyWs))[0]? := by
    conv_lhs => rw [← ht]
    exact List.getElem?_append_left hl
  have h1 : (l.dropWhile pyWs)[0]? = some ((l.dropWhile pyWs).get ⟨0, hlen⟩) := by
    rw [List.getElem?_eq_getElem hlen, List.get_eq_getElem]
  have h2 : (List.rdropWhile pyWs (l.dropWhile pyWs))[0]? =
      some ((List.rdropWhile pyWs (l.dropWhile pyWs)).get ⟨0, hl⟩) := by
    rw [List.getElem?_eq_getElem hl, List.get_eq_getElem]
  rw [h1, h2] at hq
  rw [← Option.some.inj hq]
  exact hhead

theorem stripList_idem (l : List Char) : stripList (stripList l) = stripList l := by
  rw [stripList_def (stripList l), dropWhile_stripList, stripList_def]
  exact List.rdropWhile_idempotent pyWs _

theorem pyStrip_idem (s : String) : pyStrip (pyStrip s) = pyStrip s := by
  show String.mk (stripList (stripList s.data)) = String.mk (stripList s.data)
  rw [stripList_idem]

theorem backoff_all_fail {E A : Type} (fn : Nat → Except E A) (jitter : Nat → ℚ)
    (b : ℚ) : ∀ (k i : Nat) (last : Option E),
    (∀ n, n < k → ∃ e, fn (i + n) = .error e) →
    ∃ e, (backoff_loop fn jitter b k i last).1 = .error e := by
  intro k
  induction k with
  | zero => exact fun i last _ => ⟨last, rfl⟩
  | succ k ih =>
    intro i last hfail
    obtain ⟨e, he⟩ := hfail 0 (Nat.succ_pos k)
    rw [Nat.add_zero] at he
    simp only [backoff_loop, he]
    exact ih (i + 1) (some e) (fun n hn => by
      have h2 := hfail (n + 1) (Nat.succ_lt_succ hn)
      rwa [show i + (n + 1) = i + 1 + n by omega] at h2)

theorem dictInsert_fresh (m : HeaderMap) (k : String) (v : Nat)
    (h : ∀ q ∈ m, q.1 ≠ k) : dictInsert m k v = m ++ [(k, v)] := by
  have hany : m.any (fun p => p.1 = k) = false := by
    rw [List.any_eq_false]
    intro p hp
    simpa using h p hp
  simp [dictInsert, hany]

theorem bhm_go_eq : ∀ (l : List (Nat × String)) (m : HeaderMap),
    ((headerEntries l).map Prod.fst).Nodup →
    (∀ k ∈ (headerEntries l).map Prod.fst, ∀ q ∈ m, q.1 ≠ k) →
    bhm_go m l = m ++ headerEntries l := by
  intro l
  induction l with
  | nil => intro m _ _; simp [bhm_go, headerEntries]
  | cons p l ih =>
    intro m hnd hfresh
    by_cases hp : pyStrip p.2 = ""
    · have hent : headerEntries (p :: l) = headerEntries l := by
        simp [headerEntries, List.filter_cons, hp]
      rw [hent] at hnd hfresh
      simp only [bhm_go, if_pos hp]
      rw [hent]
      exact ih m hnd hfresh
    · have hent : headerEntries (p :: l) = (pyStrip p.2, p.1 + 1) :: headerEntries l := by
        simp [headerEntries, List.filter_cons, hp]
      rw [hent] at hnd hfresh
      have hnd' : (pyStrip p.2 :: (headerEntries l).map Prod.fst).Nodup := by
        simpa using hnd
      have hkey : ∀ q ∈ m, q.1 ≠ pyStrip p.2 := hfresh _ (by simp)
      have hnd2 : ((headerEntries l).map Prod.fst).Nodup := (List.nodup_cons.mp hnd').2
      have hnotmem : pyStrip p.2 ∉ (headerEntries l).map Prod.fst :=
        (List.nodup_cons.mp hnd').1
      have hfresh2 : ∀ k ∈ (headerEntries l).map Prod.fst,
          ∀ q ∈ m ++ [(pyStrip p.2, p.1 + 1)], q.1 ≠ k := by
        intro k hk q hq
        rcases List.mem_append.mp hq with hq | hq
        · exact hfresh k (by simp [hk]) q hq
        · have hq1 : q = (pyStrip p.2, p.1 + 1) := by simpa using hq

          intro hqk
          rw [hq1] at hqk
          apply hnotmem
          have hqk2 : pyStrip p.2 = k := hqk
          rw [hqk2]
          exact hk
      simp only [bhm_go, if_neg hp]
      rw [dictInsert_fresh m _ _ hkey, ih (m ++ [(pyStrip p.2, p.1 + 1)]) hnd2 hfresh2,
        hent]
      simp

theorem update_row_cells_row (n : Nat) (u : List (String × String)) (h : HeaderMap) :
    ∀ w ∈ update_row_cells n u h, w.row = n := by
  induction u with
  | nil => intro w hw; simp [update_row_cells] at hw
  | cons kv u ih =>
    intro w hw
    unfold update_row_cells at hw
    rw [List.foldr_cons] at hw
    cases hcol : col_idx h kv.1 with
    | ok c =>
      rw [hcol] at hw
      rcases List.mem_cons.mp hw with hw | hw
      · rw [hw]
      · exact ih w hw
    | error e =>
      rw [hcol] at hw
      exact ih w hw

theorem find_ready_none (hdr : List String) :
    ∀ (rs : List (List String)) (i : Nat),
      (∀ r ∈ rs, isReadyRow hdr r = false) → find_ready hdr rs i = none := by
  intro rs
  induction rs with
  | nil => intro i _; rfl
  | cons r t ih =>
    intro i hall
    have h0 : isReadyRow hdr r = false := hall r (by simp)
    unfold find_ready
    rw [h0]
    simp only [Bool.false_eq_true, if_false]
    exact ih (i + 1) (fun q hq => hall q (by simp [hq]))

theorem find_ready_some (hdr : List String) :
    ∀ (rs : List (List String)) (i j : Nat) (d : Dict),
      find_ready hdr rs i = some (j, d) →
      ∃ k r, rs[k]? = some r ∧ j = i + k ∧ isReadyRow hdr r = true ∧
        d = row_to_dict hdr r ∧
        (∀ m r2, m < k → rs[m]? = some r2 → isReadyRow hdr r2 = false) := by
  intro rs
  induction rs with
  | nil => intro i j d h; simp [find_ready] at h
  | cons r t ih =>
    intro i j d h
    unfold find_ready at h
    by_cases hr : isReadyRow hdr r
    · rw [if_pos hr] at h
      have hj : i = j ∧ row_to_dict hdr r = d := by
        have := Option.some.inj h
        exact ⟨congrArg Prod.fst this, congrArg Prod.snd this⟩
      refine ⟨0, r, by simp, by omega, hr, hj.2.symm, ?_⟩
      intro m r2 hm _
      omega
    · rw [if_neg hr] at h
      obtain ⟨k, r2, hk, hjk, hready, hd, hprev⟩ := ih (i + 1) j d h
      refine ⟨k + 1, r2, by simpa using hk, by omega, hready, hd, ?_⟩
      intro m rm hm hmem
      cases m with
      | zero =>
        have : r = rm := by simpa using hmem
        rw [← this]
        exact Bool.eq_false_iff.mpr hr
      | succ m =>
        exact hprev m rm (by omega) (by simpa using hmem)

theorem run_claimed_trace_or (env : Env) (i : Nat) (d : Dict) (h : HeaderMap) :
    (run_claimed env i d h).2 = update_row_cells i
        [("Estatus", "RUNNING"), ("Ultimo_Error", ""), ("Actualizado_En", env.now_iso)] h ∨
    ∃ u2 res, run_claimed env i d h =
      (.ok res,
        update_row_cells i
          [("Estatus", "RUNNING"), ("Ultimo_Error", ""), ("Actualizado_En", env.now_iso)] h ++
        update_row_cells i u2 h) := by
  unfold run_claimed
  dsimp only
  cases env.open_knowledge with
  | error e => refine Or.inl ?_; rfl
  | ok u =>
    dsimp only
    cases openai_generate_post env.OPENAI_API_KEY (pyNorm (dget d "Tema")) env.gen_response with
    | error e => refine Or.inl ?_; rfl
    | ok post =>
      dsimp only
      cases extract3 post (pyNorm (dget d "Tema")) with
      | error e => refine Or.inl ?_; rfl
      | ok trip =>
        obtain ⟨t1, t2, t3⟩ := trip
        dsimp only
        by_cases hwp : (decide (env.WP_BASE_URL = "") || decide (env.WP_USER = "") ||
            decide (env.WP_APP_PASSWORD = "")) = true
        · rw [if_pos hwp]
          refine Or.inl ?_; rfl
        · rw [if_neg hwp]
          cases (if pyNorm (dget d "WP_Categoria") ≠ "" then
              Except.map some env.category_result else Except.ok none) with
          | error e => refine Or.inl ?_; rfl
          | ok cid =>
            dsimp only
            cases env.create_result with
            | error e => refine Or.inl ?_; rfl
            | ok pr =>
              obtain ⟨pid, lk⟩ := pr
              dsimp only
              refine Or.inr ⟨[("Estatus",
                  if pyOr (pyNorm (dget d "WP_Estatus")) env.DEFAULT_WP_STATUS = "publish" then
                    "PUBLISHED"
                  else "PUBLISHED"),
                ("Titulo_Final", t1), ("URL_Publicado", pyOr (lk.getD "") ""),
                ("WP_Post_ID", pyStrOfId pid), ("Ultimo_Error", ""),
                ("Actualizado_En", env.now_iso)],
                RunResult.done i pid (pyOr (lk.getD "") ""), ?_⟩
              rfl

theorem run_claimed_writes_row (env : Env) (i : Nat) (d : Dict) (h : HeaderMap) :
    ∀ w ∈ (run_claimed env i d h).2, w.row = i := by
  intro w hw
  rcases run_claimed_trace_or env i d h with ht | ⟨u2, res, heq⟩
  · rw [ht] at hw
    exact update_row_cells_row _ _ _ w hw
  · rw [heq] at hw
    rcases List.mem_append.mp hw with h2 | h2
    · exact update_row_cells_row _ _ _ w h2
    · exact update_row_cells_row _ _ _ w h2

theorem run_claimed_error_trace (env : Env) (i : Nat) (d : Dict) (h : HeaderMap)
    (e : PyErr) (herr : (run_claimed env i d h).1 = .error e) :
    (run_claimed env i d h).2 = update_row_cells i
      [("Estatus", "RUNNING"), ("Ultimo_Error", ""), ("Actualizado_En", env.now_iso)] h := by
  rcases run_claimed_trace_or env i d h with ht | ⟨u2, res, heq⟩
  · exact ht
  · rw [heq] at herr
    simp at herr

theorem run_claimed_success (env : Env) (i : Nat) (d : Dict) (h : HeaderMap)
    (post : Jval) (t ex ht : String) (cv pid : Option Int) (lk : Option String)
    (hok : env.open_knowledge = .ok ())
    (hgen : openai_generate_post env.OPENAI_API_KEY (pyNorm (dget d "Tema"))
      env.gen_response = .ok post)
    (hext : extract3 post (pyNorm (dget d "Tema")) = .ok (t, ex, ht))
    (hwp1 : env.WP_BASE_URL ≠ "") (hwp2 : env.WP_USER ≠ "")
    (hwp3 : env.WP_APP_PASSWORD ≠ "")
    (hcat : (if pyNorm (dget d "WP_Categoria") ≠ "" then
        Except.map some env.category_result else Except.ok none) = .ok cv)
    (hcre : env.create_result = .ok (pid, lk)) :
    run_claimed env i d h =
      (.ok (.done i pid (pyOr (lk.getD "") "")),
        update_row_cells i [("Estatus", "RUNNING"), ("Ultimo_Error", ""),
          ("Actualizado_En", env.now_iso)] h ++
        update_row_cells i [("Estatus", "PUBLISHED"), ("Titulo_Final", t),
          ("URL_Publicado", pyOr (lk.getD "") ""), ("WP_Post_ID", pyStrOfId pid),
          ("Ultimo_Error", ""), ("Actualizado_En", env.now_iso)] h) := by
  unfold run_claimed
  dsimp only
  rw [hok]
  dsimp only
  rw [hgen]
  dsimp only
  rw [hext]
  dsimp only
  have hwp : ¬ ((decide (env.WP_BASE_URL = "") || decide (env.WP_USER = "") ||
      decide (env.WP_APP_PASSWORD = "")) = true) := by
    simp [hwp1, hwp2, hwp3]
  rw [if_neg hwp, hcat]
  dsimp only
  rw [hcre]
  dsimp only
  rw [ite_self]

instance : IsTotal (Nat × Dict) scoreGe := ⟨fun a b => Nat.le_total b.1 a.1⟩

instance : IsTrans (Nat × Dict) scoreGe := ⟨fun _ _ _ h1 h2 => Nat.le_trans h2 h1⟩

theorem filter_orderedInsert_score (s : Nat) (a : Nat × Dict) :
    ∀ l : List (Nat × Dict),
      (List.orderedInsert scoreGe a l).filter (fun p => p.1 = s) =
        (a :: l).filter (fun p => p.1 = s) := by
  intro l
  induction l with
  | nil => rfl
  | cons b t ih =>
    by_cases hab : scoreGe a b
    · rw [List.orderedInsert, if_pos hab]
    · rw [List.orderedInsert, if_neg hab]
      have hlt : a.1 < b.1 := Nat.lt_of_not_le hab
      by_cases ha : a.1 = s <;> by_cases hb : b.1 = s
      · omega
      · simp [List.filter_cons, ha, hb, ih]
      · simp [List.filter_cons, ha, hb, ih]
      · simp [List.filter_cons, ha, hb, ih]

theorem filter_insertionSort_score (s : Nat) :
    ∀ l : List (Nat × Dict),
      (List.insertionSort scoreGe l).filter (fun p => p.1 = s) =
        l.filter (fun p => p.1 = s) := by
  intro l
  induction l with
  | nil => rfl
  | cons a t ih =>
    rw [List.insertionSort, filter_orderedInsert_score s a, List.filter_cons,
      List.filter_cons, ih]

theorem mem_scoredRows {rows : List Dict} {tema palabras : String} {p : Nat × Dict}
    (hp : p ∈ scoredRows rows tema palabras) :
    0 < p.1 ∧ p.1 = rowScore tema palabras p.2 ∧ p.2 ∈ rows := by
  unfold scoredRows at hp
  obtain ⟨r, hr, hfr⟩ := List.mem_filterMap.mp hp
  dsimp only at hfr
  by_cases h : 0 < rowScore tema palabras r
  · rw [if_pos h] at hfr
    cases hfr
    exact ⟨h, rfl, hr⟩
  · rw [if_neg h] at hfr
    cases hfr

theorem filter_scoredRows (rows : List Dict) (tema palabras : String) (s : Nat)
    (hs : 0 < s) :
    (scoredRows rows tema palabras).filter (fun p => p.1 = s) =
      (rows.filter (fun r => rowScore tema palabras r = s)).map (fun r => (s, r)) := by
  induction rows with
  | nil => rfl
  | cons r t ih =>
    show (scoredRows (r :: t) tema palabras).filter (fun p => p.1 = s) = _
    unfold scoredRows
    rw [List.filterMap_cons]
    dsimp only
    unfold scoredRows at ih
    by_cases hr : 0 < rowScore tema palabras r
    · rw [if_pos hr]
      by_cases hrs : rowScore tema palabras r = s
      · rw [List.filter_cons, List.filter_cons]
        rw [if_pos (by simpa using hrs), if_pos (by simpa using hrs)]
        rw [List.map_cons, ih, hrs]
      · simp only [List.filter_cons]
        rw [if_neg (by simpa using hrs), if_neg (by simpa using hrs), ih]
    · rw [if_neg hr]
      have hrs : ¬ rowScore tema palabras r = s := by omega
      rw [List.filter_cons, if_neg (by simpa using hrs), ih]

theorem filter_map_score (tema palabras : String) (s : Nat) :
    ∀ l : List (Nat × Dict),
      (∀ p ∈ l, p.1 = rowScore tema palabras p.2) →
      (l.map (fun p => p.2)).filter (fun r => rowScore tema palabras r = s) =
        (l.filter (fun p => p.1 = s)).map (fun p => p.2) := by
  intro l
  induction l with
  | nil => intro _; rfl
  | cons p t ih =>
    intro hmem
    have hp := hmem p (by simp)
    rw [List.map_cons, List.filter_cons, List.filter_cons]
    by_cases hps : rowScore tema palabras p.2 = s
    · rw [if_pos (by simpa using hps), if_pos (by simpa using hp.trans hps),
        List.map_cons, ih (fun q hq => hmem q (by simp [hq]))]
    · rw [if_neg (by simpa using hps), if_neg (by simpa [hp] using hps)]
      exact ih (fun q hq => hmem q (by simp [hq]))

theorem pick_score_eq (rows : List Dict) (tema palabras id : String)
    (h : (if id ≠ "" then
        rows.find? (fun r => pyNorm (dget r "ID_Tema") = pyNorm (some id))
      else none) = none) :
    pick_knowledge rows tema palabras id =
      ((List.insertionSort scoreGe (scoredRows rows tema palabras)).take 2).map
        (fun p => p.2) := by
  unfold pick_knowledge
  rw [h]

/-! ## Claims -/

/-- C5: for every zero-argument operation failing on attempts 0 and 1 and
returning `v` on attempt 2, `with_backoff` at its default parameters
(`tries = 5`, `base_sleep = 0.7`) returns `v`, sleeps exactly twice
(`0.7 + jitter 0`, then `1.4 + jitter 1`), and for every jitter outcome in
`[0, 0.25)` the second sleep is strictly greater than the first. -/
theorem C5_backoff_returns_third_attempt {E A : Type} (fn : Nat → Except E A)
    (jitter : Nat → ℚ) (v : A) (e0 e1 : E)
    (h0 : fn 0 = .error e0) (h1 : fn 1 = .error e1) (h2 : fn 2 = .ok v)
    (hj : ∀ i, 0 ≤ jitter i ∧ jitter i < 1 / 4) :
    with_backoff fn jitter 5 (7 / 10) =
      (.ok v, [7 / 10 + jitter 0, 7 / 5 + jitter 1]) ∧
    7 / 10 + jitter 0 < 7 / 5 + jitter 1 := by
  constructor
  · simp only [with_backoff, backoff_loop, h0, h1, h2]
    norm_num
  · have ha := (hj 0).2
    have hb := (hj 1).1
    linarith

/-- Witness for C5 at a concrete operation and zero jitter. -/
theorem C5_backoff_returns_third_attempt_witness :
    with_backoff (fun i => if i < 2 then Except.error () else Except.ok (42 : Nat))
        (fun _ => 0) 5 (7 / 10) =
      (.ok 42, [7 / 10 + (0 : ℚ), 7 / 5 + (0 : ℚ)]) ∧
    (7 / 10 + (0 : ℚ) : ℚ) < 7 / 5 + (0 : ℚ) :=
  C5_backoff_returns_third_attempt
    (fun i => if i < 2 then Except.error () else Except.ok (42 : Nat))
    (fun _ => 0) 42 () () rfl rfl rfl (fun _ => by norm_num)

/-- C9: when the underlying read fails on every retry attempt,
`get_all_values_safe` returns the caller-supplied default (the empty grid
when none was supplied) instead of propagating; its return type `Grid` has
no error outcome, so the function never raises. -/
theorem C9_get_all_values_safe_default {E : Type} (fn : Nat → Except E Grid)
    (jitter : Nat → ℚ) (dflt : Option Grid)
    (hfail : ∀ n, n < 5 → ∃ e, fn n = .error e) :
    get_all_values_safe fn jitter dflt = dflt.getD [] := by
  obtain ⟨e, he⟩ := backoff_all_fail fn jitter (7 / 10) 5 0 none
    (fun n hn => by simpa using hfail n hn)
  simp only [get_all_values_safe, with_backoff] at *
  rw [he]

/-- Witness for C9: an always-failing read with no default yields `[]`. -/
theorem C9_get_all_values_safe_default_witness :
    get_all_values_safe (fun i => (Except.error i : Except Nat Grid))
      (fun _ => 0) none = [] :=
  C9_get_all_values_safe_default (fun i => Except.error i) (fun _ => 0) none
    (fun n _ => ⟨n, rfl⟩)

/-- C7: for every generation response body that is not parseable JSON, the
generator returns the fallback structure — title = topic truncated to 120
characters, the fixed generic excerpt, and the raw body wrapped in a single
paragraph — and in particular body `"hello world"` with topic
`"Despido injustificado"` yields that title and `"<p>hello world</p>"`. -/
theorem C7_generation_fallback :
    (∀ tema content, json_loads content = none →
        openai_parse tema content =
          .obj [("title", .str (tema.take 120)),
                ("excerpt", .str fallback_excerpt),
                ("html", .str ("<p>" ++ content ++ "</p>"))]) ∧
    openai_parse "Despido injustificado" "hello world" =
      .obj [("title", .str "Despido injustificado"),
            ("excerpt", .str fallback_excerpt),
            ("html", .str "<p>hello world</p>")] := by
  constructor
  · intro tema content h
    unfold openai_parse
    rw [h]
  · rfl

/-- Witness for C7: discharges the non-JSON hypothesis at `"hello world"`. -/
theorem C7_generation_fallback_witness :
    json_loads "hello world" = none ∧
    openai_parse "Despido injustificado" "hello world" =
      .obj [("title", .str ("Despido injustificado".take 120)),
            ("excerpt", .str fallback_excerpt),
            ("html", .str ("<p>" ++ "hello world" ++ "</p>"))] :=
  ⟨rfl, C7_generation_fallback.1 "Despido injustificado" "hello world" rfl⟩

/-- C8: `build_header_map` maps each non-blank header, trimmed, to its
1-based position (stated as the full characterization, under pairwise
distinct trimmed headers); `col_idx` resolves a name with arbitrary
leading/trailing whitespace to the same position as its trimmed form
(exact match first, case-insensitive second); and when no header matches
even case-insensitively, `col_idx` raises `KeyError` rather than returning
a default. -/
theorem C8_header_resolution :
    (∀ headers : List String, ((headerEntries headers.enum).map Prod.fst).Nodup →
        build_header_map headers = headerEntries headers.enum) ∧
    (∀ (hm : HeaderMap) (name : String) (c : Nat),
        col_idx hm name = .ok c ↔ col_idx hm (pyStrip name) = .ok c) ∧
    (∀ (hm : HeaderMap) (name : String),
        (∀ p ∈ hm, pyLower (pyStrip p.1) ≠ pyLower (pyStrip name)) →
        ∃ msg, col_idx hm name = .error (.KeyError msg)) := by
  refine ⟨?_, ?_, ?_⟩
  · intro headers h
    have hgo := bhm_go_eq headers.enum [] h (by intro k _ q hq; simp at hq)
    simpa [build_header_map] using hgo
  · intro hm name c
    simp only [col_idx, pyStrip_idem]
    cases hf : hm.find? (fun p => p.1 = pyStrip name) with
    | some p => simp [hf]
    | none =>
      cases hg : hm.find? (fun p => pyLower (pyStrip p.1) = pyLower (pyStrip name)) with
      | some p => simp [hf, hg]
      | none => simp [hf, hg]
  · intro hm name h
    refine ⟨"Columna no encontrada en encabezados: " ++ name, ?_⟩
    have hf : hm.find? (fun p => p.1 = pyStrip name) = none := by
      rw [List.find?_eq_none]
      intro p hp
      simp only [decide_eq_true_eq]
      intro hpk
      apply h p hp
      rw [hpk, pyStrip_idem]
    have hg : hm.find? (fun p => pyLower (pyStrip p.1) = pyLower (pyStrip name)) = none := by
      rw [List.find?_eq_none]
      intro p hp
      simpa using h p hp
    simp [col_idx, hf, hg]

/-- Witness for C8 at a concrete header row and lookups. -/
theorem C8_header_resolution_witness :
    (((headerEntries (["Estatus", " Tema ", "", "Ultimo_Error"].enum)).map Prod.fst).Nodup ∧
      build_header_map ["Estatus", " Tema ", "", "Ultimo_Error"] =
        headerEntries (["Estatus", " Tema ", "", "Ultimo_Error"].enum)) ∧
    (col_idx [("Tema", 2)] "  tema " = .ok 2 ↔
      col_idx [("Tema", 2)] (pyStrip "  tema ") = .ok 2) ∧
    ((∀ p ∈ [("Tema", (2 : Nat))], pyLower (pyStrip p.1) ≠ pyLower (pyStrip "Nada")) ∧
      ∃ msg, col_idx [("Tema", 2)] "Nada" = .error (.KeyError msg)) := by
  refine ⟨⟨by decide, C8_header_resolution.1 _ (by decide)⟩,
    C8_header_resolution.2.1 [("Tema", 2)] "  tema " 2,
    by decide, C8_header_resolution.2.2 [("Tema", 2)] "Nada" (by decide)⟩

/-- C6: `_pick_knowledge` (1) returns exactly the first row whose trimmed
`ID_Tema` equals the trimmed non-empty explicit identifier, with no
scoring; (2) otherwise returns between 0 and 2 rows, each with positive
token-overlap score, ordered by score descending with original row order
preserved among equal scores (stated as: the result restricted to any
fixed score is a prefix of the input restricted to that score); (3) a
query sharing no token of length ≥ 4 with any row yields the empty list,
and the function returns `[]` (rather than raising) for empty input. -/
theorem C6_pick_knowledge_spec :
    (∀ (rows : List Dict) (tema palabras id_tema_ai : String) (r : Dict),
        id_tema_ai ≠ "" →
        rows.find? (fun r2 => pyNorm (dget r2 "ID_Tema") = pyNorm (some id_tema_ai)) =
          some r →
        pick_knowledge rows tema palabras id_tema_ai = [r]) ∧
    (∀ (rows : List Dict) (tema palabras id_tema_ai : String),
        (if id_tema_ai ≠ "" then
            rows.find? (fun r2 => pyNorm (dget r2 "ID_Tema") = pyNorm (some id_tema_ai))
          else none) = none →
        (pick_knowledge rows tema palabras id_tema_ai).length ≤ 2 ∧
        (∀ r ∈ pick_knowledge rows tema palabras id_tema_ai,
          0 < rowScore tema palabras r) ∧
        (pick_knowledge rows tema palabras id_tema_ai).Pairwise
          (fun a b => rowScore tema palabras b ≤ rowScore tema palabras a) ∧
        (∀ s, (pick_knowledge rows tema palabras id_tema_ai).filter
            (fun r => rowScore tema palabras r = s) <+:
          rows.filter (fun r => rowScore tema palabras r = s))) ∧
    (∀ (rows : List Dict) (tema palabras id_tema_ai : String),
        (if id_tema_ai ≠ "" then
            rows.find? (fun r2 => pyNorm (dget r2 "ID_Tema") = pyNorm (some id_tema_ai))
          else none) = none →
        (∀ r ∈ rows, rowScore tema palabras r = 0) →
        pick_knowledge rows tema palabras id_tema_ai = []) ∧
    (∀ tema palabras id_tema_ai : String,
        pick_knowledge [] tema palabras id_tema_ai = []) := by
  refine ⟨?_, ?_, ?_, ?_⟩
  · intro rows tema palabras id r hid hfind
    unfold pick_knowledge
    rw [if_pos hid, hfind]
  · intro rows tema palabras id h
    rw [pick_score_eq rows tema palabras id h]
    refine ⟨?_, ?_, ?_, ?_⟩
    · rw [List.length_map]
      exact List.length_take_le 2 _
    · intro r hr
      obtain ⟨p, hp, hpr⟩ := List.mem_map.mp hr
      have hpS : p ∈ scoredRows rows tema palabras :=
        (List.mem_insertionSort scoreGe).mp (List.mem_of_mem_take hp)
      obtain ⟨hpos, hsc, _⟩ := mem_scoredRows hpS
      rw [← hpr, ← hsc]
      exact hpos
    · have hsorted : (List.insertionSort scoreGe (scoredRows rows tema palabras)).Pairwise
          scoreGe := List.sorted_insertionSort scoreGe _
      have htake : ((List.insertionSort scoreGe (scoredRows rows tema palabras)).take 2).Pairwise
          scoreGe := hsorted.sublist (List.take_prefix 2 _).sublist
      rw [List.pairwise_map]
      refine List.Pairwise.imp_of_mem ?_ htake
      intro a b ha hb hab
      have hsa := (mem_scoredRows ((List.mem_insertionSort scoreGe).mp
        (List.mem_of_mem_take ha))).2.1
      have hsb := (mem_scoredRows ((List.mem_insertionSort scoreGe).mp
        (List.mem_of_mem_take hb))).2.1
      rw [← hsa, ← hsb]
      exact hab
    · intro s
      by_cases hs : 0 < s
      · have hcomm := filter_map_score tema palabras s
          ((List.insertionSort scoreGe (scoredRows rows tema palabras)).take 2)
          (fun p hp => (mem_scoredRows ((List.mem_insertionSort scoreGe).mp
            (List.mem_of_mem_take hp))).2.1)
        rw [hcomm]
        have heq : (List.insertionSort scoreGe (scoredRows rows tema palabras)).filter
            (fun p => p.1 = s) =
            (rows.filter (fun r => rowScore tema palabras r = s)).map (fun r => (s, r)) :=
          (filter_insertionSort_score s _).trans (filter_scoredRows rows tema palabras s hs)
        have hpref := ((List.take_prefix 2
          (List.insertionSort scoreGe (scoredRows rows tema palabras))).filter
            (fun p => p.1 = s)).map (fun p => p.2)
        rw [heq] at hpref
        have hid2 : ((rows.filter (fun r => rowScore tema palabras r = s)).map
            (fun r => (s, r))).map (fun p => p.2) =
            rows.filter (fun r => rowScore tema palabras r = s) := by
          rw [List.map_map]
          exact List.map_id _
        rwa [hid2] at hpref
      · have hnil : (((List.insertionSort scoreGe
            (scoredRows rows tema palabras)).take 2).map (fun p => p.2)).filter
            (fun r => rowScore tema palabras r = s) = [] := by
          apply List.filter_eq_nil_iff.mpr
          intro r hr
          obtain ⟨p, hp, hpr⟩ := List.mem_map.mp hr
          obtain ⟨hpos, hsc, _⟩ := mem_scoredRows ((List.mem_insertionSort scoreGe).mp
            (List.mem_of_mem_take hp))
          simp only [decide_eq_true_eq]
          rw [← hpr, ← hsc]
          omega
        rw [hnil]
        exact List.nil_prefix
  · intro rows tema palabras id h hzero
    rw [pick_score_eq rows tema palabras id h]
    have hsc : scoredRows rows tema palabras = [] := by
      apply List.filterMap_eq_nil_iff.mpr
      intro r hr
      dsimp only
      rw [if_neg]
      rw [hzero r hr]
      omega
    rw [hsc]
    rfl
  · intro tema palabras id
    have h : (if id ≠ "" then
        ([] : List Dict).find? (fun r2 => pyNorm (dget r2 "ID_Tema") = pyNorm (some id))
      else none) = none := by
      by_cases hid : id ≠ "" <;> simp [hid]
    rw [pick_score_eq [] tema palabras id h]
    rfl

/-- Witness for C6 at concrete knowledge rows, discharging each hypothesis. -/
theorem C6_pick_knowledge_spec_witness :
    (("  T2" ≠ "" ∧
        [[("ID_Tema", "T1")], [("ID_Tema", "T2 ")]].find?
          (fun r2 => pyNorm (dget r2 "ID_Tema") = pyNorm (some "  T2")) =
          some [("ID_Tema", "T2 ")] ∧
        pick_knowledge [[("ID_Tema", "T1")], [("ID_Tema", "T2 ")]] "x" "y" "  T2" =
          [[("ID_Tema", "T2 ")]]) ∧
      (pick_knowledge [[("Titulo_Visible", "Vacaciones pagadas")]] "vacaciones" "" "").length ≤ 2) ∧
    (pick_knowledge [[("Titulo_Visible", "Vacaciones pagadas")]] "zzzz" "qqqq" "" = []) ∧
    (pick_knowledge [] "a" "b" "c" = []) := by
  refine ⟨⟨⟨by decide, rfl, C6_pick_knowledge_spec.1 _ "x" "y" "  T2" _ (by decide) rfl⟩, ?_⟩, ?_, C6_pick_knowledge_spec.2.2.2 "a" "b" "c"⟩
  · exact (C6_pick_knowledge_spec.2.1 [[("Titulo_Visible", "Vacaciones pagadas")]]
      "vacaciones" "" "" rfl).1
  · exact C6_pick_knowledge_spec.2.2.1 [[("Titulo_Visible", "Vacaciones pagadas")]]
      "zzzz" "qqqq" "" rfl (by decide)

/-- C1: `content_bot.py` imports `row_to_dict` and `update_row_cells` from
`utils.sheets`, but `utils/sheets.py` binds neither name, so loading the
orchestrator module fails with `ImportError` before any call; in
particular, for every environment, no invocation of `run_once` — and so no
claim write, no publish write, and no `ok` result — is reachable. -/
theorem C1_import_failure_blocks_run_once :
    load_content_bot = .error "ImportError: cannot import name row_to_dict" ∧
    "row_to_dict" ∉ sheets_module_names ∧
    "update_row_cells" ∉ sheets_module_names ∧
    ∀ env, invoke_run_once env = .error "ImportError: cannot import name row_to_dict" :=
  ⟨rfl, by decide, by decide, fun _ => rfl⟩

/-- C4: in any single `run_once` invocation whose scan claims a row, every
cell write of the run targets that row, and the claimed row is exactly the
first data row (top-to-bottom, sheet rows from 2) whose trimmed,
upper-cased status equals `READY`; every earlier row is not READY and every
later row, READY or not, receives no write. -/
theorem C4_at_most_one_claim (env : Env) (hdr : List String)
    (rows : List (List String)) (i : Nat) (d : Dict)
    (hplan : env.plan_values = hdr :: rows)
    (hfind : find_ready hdr rows 2 = some (i, d)) :
    (∀ w ∈ (run_once env).2, w.row = i) ∧
    (∃ k r, rows[k]? = some r ∧ i = 2 + k ∧ isReadyRow hdr r = true ∧
      (∀ m r2, m < k → rows[m]? = some r2 → isReadyRow hdr r2 = false)) := by
  constructor
  · intro w hw
    unfold run_once at hw
    by_cases hname : env.CONTENT_SHEET_NAME = ""
    · rw [if_pos hname] at hw
      simp at hw
    · rw [if_neg hname] at hw
      cases hop : env.open_plan with
      | error e =>
        rw [hop] at hw
        simp at hw
      | ok u =>
        rw [hop] at hw
        dsimp only at hw
        rw [hplan] at hw
        cases rows with
        | nil => simp [find_ready] at hfind
        | cons r0 rs =>
          dsimp only at hw
          rw [hfind] at hw
          dsimp only at hw
          exact run_claimed_writes_row env i d (build_header_map env.plan_header_row) w hw
  · obtain ⟨k, r, hk, hik, hready, _, hprev⟩ := find_ready_some hdr rows 2 i d hfind
    exact ⟨k, r, hk, by omega, hready, hprev⟩

/-- Witness for C4: READY rows at sheet rows 3 and 5; the run claims row 3
and every write targets row 3. -/
theorem C4_at_most_one_claim_witness :
    (∀ w ∈ (run_once envMulti).2, w.row = 3) ∧
    (∃ k r,
      ([["DONE", "Contrato"], ["READY", "Vacaciones"], ["", "Otro"],
        ["READY", "Aguinaldo"]] : List (List String))[k]? = some r ∧
      3 = 2 + k ∧ isReadyRow planHeader r = true ∧
      (∀ m r2, m < k →
        ([["DONE", "Contrato"], ["READY", "Vacaciones"], ["", "Otro"],
          ["READY", "Aguinaldo"]] : List (List String))[m]? = some r2 →
        isReadyRow planHeader r2 = false)) :=
  C4_at_most_one_claim envMulti planHeader
    [["DONE", "Contrato"], ["READY", "Vacaciones"], ["", "Otro"], ["READY", "Aguinaldo"]]
    3 (row_to_dict planHeader ["READY", "Vacaciones"]) rfl rfl

/-- C10: without issuing any cell write, `run_once` returns the `no_rows`
result on a grid that is empty or header-only, and the distinct
`nothing_ready` result on a grid whose data rows exist but none has status
READY. -/
theorem C10_no_work_outcomes (env : Env)
    (hname : env.CONTENT_SHEET_NAME ≠ "") (hopen : env.open_plan = .ok ()) :
    (env.plan_values.length < 2 → run_once env = (.ok .no_rows, [])) ∧
    (∀ hdr r0 rs, env.plan_values = hdr :: r0 :: rs →
      (∀ r ∈ r0 :: rs, isReadyRow hdr r = false) →
      run_once env = (.ok .nothing_ready, [])) := by
  constructor
  · intro hlen
    unfold run_once
    rw [if_neg hname, hopen]
    dsimp only
    cases hpv : env.plan_values with
    | nil => rfl
    | cons a l =>
      cases l with
      | nil => rfl
      | cons b m =>
        rw [hpv] at hlen
        simp at hlen
        omega
  · intro hdr r0 rs hpv hnone
    unfold run_once
    rw [if_neg hname, hopen]
    dsimp only
    rw [hpv]
    dsimp only
    rw [find_ready_none hdr (r0 :: rs) 2 hnone]

/-- Witness for C10: a header-only grid gives `no_rows`; a grid with one
non-READY data row gives `nothing_ready`; neither run writes a cell. -/
theorem C10_no_work_outcomes_witness :
    run_once { envHappy with plan_values := [planHeader] } = (.ok .no_rows, []) ∧
    run_once { envHappy with plan_values := [planHeader, ["DONE", "x"]] } =
      (.ok .nothing_ready, []) :=
  ⟨(C10_no_work_outcomes _ (by decide) rfl).1 (by decide),
   (C10_no_work_outcomes _ (by decide) rfl).2 planHeader ["DONE", "x"] [] rfl (by decide)⟩

/-- C3 (counterexample to the claim as stated): in `envFail` the row is
marked RUNNING and then the generation step raises
`RuntimeError("Falta OPENAI_API_KEY")`; the run's writes are exactly the
three claim-time writes — status `RUNNING`, error field cleared to `""`,
timestamp — and no write anywhere carries the error text, so the
orchestrator does not write the error into the row's error field. -/
theorem C3_counterexample_no_error_write :
    run_once envFail =
      (.error (.RuntimeError "Falta OPENAI_API_KEY"),
        [⟨2, 1, "RUNNING"⟩, ⟨2, 7, ""⟩, ⟨2, 8, "2026-10-12T09:00:00-0600"⟩]) ∧
    (∀ w ∈ (run_once envFail).2, w.value ≠ "Falta OPENAI_API_KEY") := by
  constructor
  · rfl
  · decide

/-- C3 (amended): for every exception raised after the claimed row is
marked RUNNING, the orchestrator performs no further write at all: the
trace is exactly the three claim-time writes, so the status field is left
at RUNNING (never reverted to READY), the error field keeps the cleared
empty string — the error text is not written — and the exception
propagates to `run_once`'s caller uncaught (the run's result is that very
error). -/
theorem C3_amended_failure_leaves_running (env : Env) (hdr : List String)
    (rows : List (List String)) (i : Nat) (d : Dict) (e : PyErr)
    (hname : env.CONTENT_SHEET_NAME ≠ "") (hopen : env.open_plan = .ok ())
    (hplan : env.plan_values = hdr :: rows)
    (hfind : find_ready hdr rows 2 = some (i, d))
    (herr : (run_once env).1 = .error e) :
    (run_once env).2 = update_row_cells i
      [("Estatus", "RUNNING"), ("Ultimo_Error", ""), ("Actualizado_En", env.now_iso)]
      (build_header_map env.plan_header_row) := by
  have hred : run_once env = run_claimed env i d (build_header_map env.plan_header_row) := by
    unfold run_once
    rw [if_neg hname, hopen]
    dsimp only
    rw [hplan]
    cases rows with
    | nil => simp [find_ready] at hfind
    | cons r0 rs =>
      dsimp only
      rw [hfind]
  rw [hred] at herr ⊢
  exact run_claimed_error_trace env i d _ e herr

/-- Witness for C3 (amended) at `envFail`. -/
theorem C3_amended_failure_leaves_running_witness :
    (run_once envFail).1 = .error (.RuntimeError "Falta OPENAI_API_KEY") ∧
    (run_once envFail).2 = update_row_cells 2
      [("Estatus", "RUNNING"), ("Ultimo_Error", ""), ("Actualizado_En", envFail.now_iso)]
      (build_header_map envFail.plan_header_row) :=
  ⟨rfl, C3_amended_failure_leaves_running envFail planHeader [["READY", "Vacaciones"]] 2
    (row_to_dict planHeader ["READY", "Vacaciones"]) (.RuntimeError "Falta OPENAI_API_KEY")
    (by decide) rfl rfl rfl rfl⟩

/-- C2: whenever a row is claimed and the generation and publish calls
succeed, `run_once` issues the final update with the literal string
`PUBLISHED` in the status entry — unconditionally, also when the resolved
WordPress status is a non-publish draft state — and returns the `ok`
result carrying the claimed sheet row, the created post id and its link. -/
theorem C2_happy_path_publishes (env : Env) (hdr : List String)
    (rows : List (List String)) (i : Nat) (d : Dict) (post : Jval)
    (t ex ht : String) (cv pid : Option Int) (lk : Option String) (cEst : Nat)
    (hname : env.CONTENT_SHEET_NAME ≠ "") (hopen : env.open_plan = .ok ())
    (hplan : env.plan_values = hdr :: rows)
    (hfind : find_ready hdr rows 2 = some (i, d))
    (hok : env.open_knowledge = .ok ())
    (hgen : openai_generate_post env.OPENAI_API_KEY (pyNorm (dget d "Tema"))
      env.gen_response = .ok post)
    (hext : extract3 post (pyNorm (dget d "Tema")) = .ok (t, ex, ht))
    (hwp1 : env.WP_BASE_URL ≠ "") (hwp2 : env.WP_USER ≠ "")
    (hwp3 : env.WP_APP_PASSWORD ≠ "")
    (hcat : (if pyNorm (dget d "WP_Categoria") ≠ "" then
        Except.map some env.category_result else Except.ok none) = .ok cv)
    (hcre : env.create_result = .ok (pid, lk))
    (hdraft : pyOr (pyNorm (dget d "WP_Estatus")) env.DEFAULT_WP_STATUS ≠ "publish")
    (hcol : col_idx (build_header_map env.plan_header_row) "Estatus" = .ok cEst) :
    run_once env =
      (.ok (.done i pid (pyOr (lk.getD "") "")),
        update_row_cells i [("Estatus", "RUNNING"), ("Ultimo_Error", ""),
          ("Actualizado_En", env.now_iso)] (build_header_map env.plan_header_row) ++
        update_row_cells i [("Estatus", "PUBLISHED"), ("Titulo_Final", t),
          ("URL_Publicado", pyOr (lk.getD "") ""), ("WP_Post_ID", pyStrOfId pid),
          ("Ultimo_Error", ""), ("Actualizado_En", env.now_iso)]
          (build_header_map env.plan_header_row)) ∧
    CellWrite.mk i cEst "PUBLISHED" ∈ (run_once env).2 := by
  have hmain : run_once env =
      (.ok (.done i pid (pyOr (lk.getD "") "")),
        update_row_cells i [("Estatus", "RUNNING"), ("Ultimo_Error", ""),
          ("Actualizado_En", env.now_iso)] (build_header_map env.plan_header_row) ++
        update_row_cells i [("Estatus", "PUBLISHED"), ("Titulo_Final", t),
          ("URL_Publicado", pyOr (lk.getD "") ""), ("WP_Post_ID", pyStrOfId pid),
          ("Ultimo_Error", ""), ("Actualizado_En", env.now_iso)]
          (build_header_map env.plan_header_row)) := by
    unfold run_once
    rw [if_neg hname, hopen]
    dsimp only
    rw [hplan]
    cases rows with
    | nil => simp [find_ready] at hfind
    | cons r0 rs =>
      dsimp only
      rw [hfind]
      dsimp only
      exact run_claimed_success env i d _ post t ex ht cv pid lk hok hgen hext
        hwp1 hwp2 hwp3 hcat hcre
  refine ⟨hmain, ?_⟩
  rw [hmain]
  dsimp only
  apply List.mem_append.mpr
  right
  unfold update_row_cells
  rw [List.foldr_cons, hcol]
  exact List.mem_cons_self _ _

/-- Witness for C2 at `envHappy`: row 2 claimed, generation succeeds via the
plain-text fallback, the draft status stays `draft`, and the final status
write is `PUBLISHED` at the status column. -/
theorem C2_happy_path_publishes_witness :
    run_once envHappy =
      (.ok (.done 2 (some 42) (pyOr ((some "https://example.org/p/1").getD "") "")),
        update_row_cells 2 [("Estatus", "RUNNING"), ("Ultimo_Error", ""),
          ("Actualizado_En", envHappy.now_iso)] (build_header_map envHappy.plan_header_row) ++
        update_row_cells 2 [("Estatus", "PUBLISHED"), ("Titulo_Final", "Vacaciones"),
          ("URL_Publicado", pyOr ((some "https://example.org/p/1").getD "") ""),
          ("WP_Post_ID", pyStrOfId (some 42)), ("Ultimo_Error", ""),
          ("Actualizado_En", envHappy.now_iso)] (build_header_map envHappy.plan_header_row)) ∧
    CellWrite.mk 2 1 "PUBLISHED" ∈ (run_once envHappy).2 :=
  C2_happy_path_publishes envHappy planHeader [["READY", "Vacaciones"]] 2
    (row_to_dict planHeader ["READY", "Vacaciones"])
    (Jval.obj [("title", Jval.str "Vacaciones"), ("excerpt", Jval.str fallback_excerpt),
      ("html", Jval.str "<p>texto plano</p>")])
    "Vacaciones" fallback_excerpt "<p>texto plano</p>" none (some 42)
    (some "https://example.org/p/1") 1
    (by decide) rfl rfl rfl rfl rfl rfl (by decide) (by decide) (by decide) rfl rfl
    (by decide) rfl

end TdlmBot
